import Mathlib

/-!
Verification of the THZ terahertz-detector core against its source.

The development shallow-embeds, over `Nat` bytes and exact `ℚ` arithmetic:
* the length-prefixed frame decoder of `TcpServer._process_data_packets`,
* the 12-state Kalman filter `CoordinatePredictor` of `CoorDroneWidget.py`,
* the frame ring buffer `FrameBuffer` of `FrameBuffer.py`,
* the timing-mode arbitration and the acquisition-session state machine of
  `TerahertzDetectorUI._handle_frame` / `_handle_coordinate`.
-/

namespace THZ

/-! ## Frame decoder (`TcpServer.py`) -/

/-- Big-endian 32-bit word from four bytes, as read by `struct.unpack("!II", ...)`. -/
def be32 (b0 b1 b2 b3 : Nat) : Nat :=
  ((b0 * 256 + b1) * 256 + b2) * 256 + b3

/-- The 8-byte header `[u32 type][u32 length]` at the front of the buffer, if present. -/
def readHeader : List Nat → Option (Nat × Nat)
  | b0 :: b1 :: b2 :: b3 :: b4 :: b5 :: b6 :: b7 :: _ =>
    some (be32 b0 b1 b2 b3, be32 b4 b5 b6 b7)
  | _ => none

/-- `TcpServer._process_data_packets`: repeatedly strip a complete
`[u32 type][u32 length][payload]` packet from the front of `read_buffer`,
returning the extracted `(type, payload)` packets and the remaining buffer.
A missing or incomplete payload leaves the buffer untouched for the next call. -/
def processDataPackets (buf : List Nat) : List (Nat × List Nat) × List Nat :=
  match buf with
  | b0 :: b1 :: b2 :: b3 :: b4 :: b5 :: b6 :: b7 :: rest =>
    if be32 b4 b5 b6 b7 ≤ rest.length then
      ((be32 b0 b1 b2 b3, rest.take (be32 b4 b5 b6 b7)) ::
         (processDataPackets (rest.drop (be32 b4 b5 b6 b7))).1,
       (processDataPackets (rest.drop (be32 b4 b5 b6 b7))).2)
    else ([], buf)
  | _ => ([], buf)
termination_by buf.length
decreasing_by
  simp only [List.length_drop, List.length_cons]
  omega

/-- `TcpServer._on_data_ready_read`, one chunk: append the arrived bytes to
`read_buffer` and run the packet loop. -/
def feed (st chunk : List Nat) : List (Nat × List Nat) × List Nat :=
  processDataPackets (st ++ chunk)

/-- Feed a sequence of chunks one at a time, threading the retained buffer and
concatenating the emitted packet sequences. -/
def feedMany (st : List Nat) : List (List Nat) → List (Nat × List Nat) × List Nat
  | [] => ([], st)
  | c :: cs =>
    ((feed st c).1 ++ (feedMany (feed st c).2 cs).1, (feedMany (feed st c).2 cs).2)

/-! ## 12-state Kalman filter (`CoorDroneWidget.CoordinatePredictor`),
in exact rational arithmetic. -/

/-- Observation matrix `self.H`: projects the 12-state onto the 6 observed pose
components (`H[i, i] = 1.0` for `i < 6`). -/
def Hmat : Matrix (Fin 6) (Fin 12) ℚ :=
  Matrix.of fun i j => if (j : Nat) = (i : Nat) then 1 else 0

/-- Process noise covariance `self.Q = np.eye(12) * 0.1`. -/
def Qmat : Matrix (Fin 12) (Fin 12) ℚ := (1 / 10 : ℚ) • 1

/-- Base measurement noise covariance `self.R_base = np.eye(6) * 1.0`. -/
def Rbase : Matrix (Fin 6) (Fin 6) ℚ := 1

/-- Exact-arithmetic matrix inverse, as `np.linalg.inv` computes on an invertible
matrix: `det⁻¹ • adjugate` (zero matrix on a singular input). -/
def matInv (M : Matrix (Fin 6) (Fin 6) ℚ) : Matrix (Fin 6) (Fin 6) ℚ :=
  (M.det)⁻¹ • M.adjugate

/-- State of `CoordinatePredictor`: transition matrix `A`, 12-state estimate `x`,
covariance `P`, active measurement noise `R`, timestamp anchor, history deque,
and the fps/time-base-mode parameters. -/
structure Predictor where
  A : Matrix (Fin 12) (Fin 12) ℚ
  x : Fin 12 → ℚ
  P : Matrix (Fin 12) (Fin 12) ℚ
  R : Matrix (Fin 6) (Fin 6) ℚ
  last_update_time : Option ℚ
  state_history : List (Fin 12 → ℚ)
  current_fps : ℚ
  default_dt : ℚ
  use_fixed_fps : Bool

/-- `CoordinatePredictor.__init__(initial_fps)`. -/
def Predictor.init (initial_fps : ℚ) : Predictor where
  A := 1
  x := fun _ => 0
  P := (100 : ℚ) • 1
  R := Rbase
  last_update_time := none
  state_history := []
  current_fps := initial_fps
  default_dt := 1 / initial_fps
  use_fixed_fps := true

/-- `CoordinatePredictor.set_fps`: rejects non-positive fps silently; otherwise
updates the declared fps and default `dt`, and optionally the time-base mode. -/
def Predictor.set_fps (p : Predictor) (fps : ℚ) (use_fixed : Option Bool) : Predictor :=
  if fps ≤ 0 then p
  else
    { p with current_fps := fps, default_dt := 1 / fps,
             use_fixed_fps := use_fixed.getD p.use_fixed_fps }

/-- Append to the `state_history` deque (`maxlen=10` drops the oldest entry). -/
def histAppend (h : List (Fin 12 → ℚ)) (v : Fin 12 → ℚ) : List (Fin 12 → ℚ) :=
  if 10 < h.length + 1 then (h ++ [v]).drop (h.length + 1 - 10) else h ++ [v]

/-- `CoordinatePredictor.update(measurement, timestamp, is_coord_updated)`:
reject wrong-length measurements; pick `dt` by time-base mode; refresh the
transition matrix velocity entries; pick `R` by freshness; then run the
predict / correct Kalman recursion. -/
def Predictor.update (p : Predictor) (measurement : List ℚ) (timestamp : ℚ)
    (is_coord_updated : Bool) : Predictor :=
  if measurement.length ≠ 6 then p
  else
    let dt := if p.use_fixed_fps then p.default_dt
      else match p.last_update_time with
        | some t0 => timestamp - t0
        | none => p.default_dt
    let A := Matrix.of fun i j : Fin 12 => if (j : Nat) = (i : Nat) + 6 then dt else p.A i j
    let R := if is_coord_updated then Rbase else (100 : ℚ) • Rbase
    let z : Fin 6 → ℚ := fun i => measurement.getD (i : Nat) 0
    let x_prior := A.mulVec p.x
    let P_prior := A * p.P * A.transpose + Qmat
    let y := z - Hmat.mulVec x_prior
    let S := Hmat * P_prior * Hmat.transpose + R
    let K := P_prior * Hmat.transpose * matInv S
    let x_new := x_prior + K.mulVec y
    { p with
      A := A
      last_update_time := some timestamp
      R := R
      x := x_new
      P := (1 - K * Hmat) * P_prior
      state_history := histAppend p.state_history x_new }

/-- Run a list of `(measurement, timestamp, is_fresh)` updates in order. -/
def runUpdates (p : Predictor) : List (List ℚ × ℚ × Bool) → Predictor
  | [] => p
  | u :: us => runUpdates (p.update u.1 u.2.1 u.2.2) us

/-! ## Frame accumulator (`FrameBuffer.py`) -/

/-- A 64×64 8-bit frame (the grids emitted by `cv2.normalize(..., CV_8U)`). -/
abbrev Frame := Fin 64 → Fin 64 → Nat

/-- The zero-filled grid `np.zeros((64, 64), dtype=np.uint8)`. -/
def zeroFrame : Frame := fun _ _ => 0

/-- `FrameBuffer`: a `deque(maxlen=max_size)` of recent frames (default 99,
`MAX_RECORDED_FRAMES`) plus an independently held reference snapshot. -/
structure FrameBuffer where
  buffer : List Frame
  reference_frame : Option Frame
  max_size : Nat

def FrameBuffer.empty : FrameBuffer :=
  { buffer := [], reference_frame := none, max_size := 99 }

/-- `FrameBuffer.add_frame`: append; the bounded deque drops the oldest frame
when the bound is exceeded. -/
def FrameBuffer.add_frame (fb : FrameBuffer) (f : Frame) : FrameBuffer :=
  { fb with buffer :=
      if fb.max_size < fb.buffer.length + 1 then
        (fb.buffer ++ [f]).drop (fb.buffer.length + 1 - fb.max_size)
      else fb.buffer ++ [f] }

/-- `FrameBuffer.set_reference`. -/
def FrameBuffer.set_reference (fb : FrameBuffer) (f : Frame) : FrameBuffer :=
  { fb with reference_frame := some f }

/-- `FrameBuffer.clear`: empties both the ring and the reference snapshot. -/
def FrameBuffer.clear (fb : FrameBuffer) : FrameBuffer :=
  { fb with buffer := [], reference_frame := none }

/-- The auto-switch block of `_handle_coordinate`: when enabled and the
measured fps is positive, compare the smoothed delay against
`AUTO_SWITCH_THRESHOLD_MS = 100.0` and `|measured - declared|` against
`FPS_DIFF_THRESHOLD = 5.0`; on a detected problem force declared (fixed-fps)
mode, otherwise switch to measured mode, in both cases through the
`kalman_mode_btn` / `_toggle_kalman_mode` / `set_fps(push_fps, mode)` chain,
guarded so that re-asserting the current mode is a no-op. -/
def applyAutoSwitch (autoSwitch : Bool) (measuredFps delayMs pushFps : ℚ)
    (pred : Predictor) : Predictor :=
  if autoSwitch then
    if 0 < measuredFps then
      if delayMs > 100 ∨ |measuredFps - pushFps| > 5 then
        if pred.use_fixed_fps = false then pred.set_fps pushFps (some true) else pred
      else
        if pred.use_fixed_fps = true then pred.set_fps pushFps (some false) else pred
    else pred
  else pred

/-! ## Acquisition session controller (`TerahertzDetectorUI`) -/

/-- Configuration the handlers read from the dialogs and the smoothed network
estimates: the auto-save checkbox, whether `DataSaver.start_session` succeeds
(persistence initialization is the one I/O step that gates session creation),
the target frame count, the auto-switch checkbox, and the smoothed measured
fps / inter-packet delay consumed by the arbiter. -/
structure Config where
  auto_save : Bool
  saver_ok : Bool
  target_frames : Nat
  auto_switch : Bool
  measured_fps : ℚ
  delay_ms : ℚ

/-- The acquisition-relevant mutable state of `TerahertzDetectorUI`:
recording flags, the pending first frame, the frame counter, the recorded
series (`recorded_frames`, and the playback controller's `coords` /
`fps_values`), the frame ring buffer and the pose estimator. -/
structure Controller where
  is_recording : Bool
  waiting_for_first_coordinate : Bool
  session_started : Bool
  first_frame_data : Option Frame
  frame_count : Nat
  fps_cnt : Nat
  recorded_frames : List Frame
  frame_buffer : FrameBuffer
  current_frame : Option Frame
  predictor : Predictor
  current_coordinate : Fin 12 → ℚ
  last_received_coord : Fin 6 → ℚ
  coord_repeat_count : Nat
  push_fps : ℚ
  coords : List (Fin 12 → ℚ)
  fps_values : List ℚ
  recording_start_time : ℚ

/-- The `__init__` values of the acquisition-relevant fields. -/
def Controller.init (initial_fps : ℚ) : Controller where
  is_recording := false
  waiting_for_first_coordinate := false
  session_started := false
  first_frame_data := none
  frame_count := 0
  fps_cnt := 0
  recorded_frames := []
  frame_buffer := FrameBuffer.empty
  current_frame := none
  predictor := Predictor.init initial_fps
  current_coordinate := fun _ => 0
  last_received_coord := fun _ => 0
  coord_repeat_count := 0
  push_fps := 30
  coords := []
  fps_values := []
  recording_start_time := 0

/-- `start_recording`: clear the playback series and the capture buffers,
reset the counters, cache no first frame, and enter the
awaiting-first-coordinate state with a fresh start timestamp. -/
def startRecording (c : Controller) (now : ℚ) : Controller :=
  { c with coords := [], fps_values := [],
           recorded_frames := [], frame_buffer := c.frame_buffer.clear,
           first_frame_data := none,
           frame_count := 0, is_recording := true,
           session_started := false, waiting_for_first_coordinate := true,
           recording_start_time := now }

/-- `stop_recording` (its effect on the modelled fields): leave recording;
an early return makes it a no-op when not recording. -/
def stopRecording (c : Controller) : Controller :=
  if c.is_recording then { c with is_recording := false } else c

/-- `_process_cached_first_frame`: the cached frame becomes captured frame 1. -/
def processCachedFirstFrame (c : Controller) (f : Frame) : Controller :=
  { c with frame_count := 1, current_frame := some f,
           frame_buffer := c.frame_buffer.add_frame f,
           recorded_frames := c.recorded_frames ++ [f] }

/-- `_create_session_with_coordinate`: write the first six entries of
`current_coordinate`; abort (stop recording) if persistence initialization
fails; otherwise mark the session started and retroactively attach the
pending first frame, if any, as frame 0. -/
def createSessionWithCoordinate (cfg : Config) (c : Controller) (coord : Fin 6 → ℚ) :
    Controller :=
  let c0 := { c with current_coordinate := fun i =>
      if h : (i : Nat) < 6 then coord ⟨i, h⟩ else c.current_coordinate i }
  if cfg.auto_save && !cfg.saver_ok then
    stopRecording c0
  else
    let c1 := { c0 with session_started := true, waiting_for_first_coordinate := false }
    match c1.first_frame_data with
    | some f => { processCachedFirstFrame c1 f with first_frame_data := none }
    | none => c1

/-- `_handle_frame`: ignore frames when not recording; while awaiting the
first coordinate cache only the first frame (and set it as the difference
reference); otherwise capture the frame and auto-stop at the target count. -/
def handleFrame (cfg : Config) (c : Controller) (data : Frame) : Controller :=
  if !c.is_recording then c
  else
    let c1 := { c with fps_cnt := c.fps_cnt + 1 }
    if c1.waiting_for_first_coordinate then
      match c1.first_frame_data with
      | none => { c1 with first_frame_data := some data,
                          frame_buffer := c1.frame_buffer.set_reference data }
      | some _ => c1
    else
      let c2 := { c1 with frame_count := c1.frame_count + 1, current_frame := some data,
                          frame_buffer := c1.frame_buffer.add_frame data,
                          recorded_frames := c1.recorded_frames ++ [data] }
      if cfg.target_frames ≤ c2.frame_count then stopRecording c2 else c2

/-- `_handle_coordinate(coord, timestamp, fps, ...)`; `now` is the wall-clock
read whose only use in the source is the 10-second timeout *log message*
(`is_timeout` selects between two log lines and nothing else), so it does not
appear in the state update. The repeat detection compares against the last
received coordinate with the source's `1e-6` tolerance, the estimator is
updated with the 6 observed components, the auto-switch arbitration may flip
the estimator's time-base mode, a first coordinate while awaiting one creates
the session, and an active session appends the smoothed state and declared
fps to the playback series. -/
def handleCoordinate (cfg : Config) (c : Controller) (coord : Fin 12 → ℚ)
    (timestamp fps now : ℚ) : Controller :=
  let c6 : Fin 6 → ℚ := fun i => coord (Fin.castLE (by norm_num) i)
  let updated : Bool :=
    decide (∃ i : Fin 6, |c6 i - c.last_received_coord i| > 1 / 1000000)
  let c1 := { c with
    push_fps := fps,
    predictor := c.predictor.set_fps fps none,
    coord_repeat_count := if updated then 0 else c.coord_repeat_count + 1,
    last_received_coord := c6 }
  let pred2 := c1.predictor.update (List.ofFn c6) timestamp updated
  let full_state := pred2.x
  let c2 := { c1 with predictor := pred2, current_coordinate := full_state }
  let pred3 := applyAutoSwitch cfg.auto_switch cfg.measured_fps cfg.delay_ms fps c2.predictor
  let c3 := { c2 with predictor := pred3 }
  let c4 := if c3.waiting_for_first_coordinate && c3.is_recording then
      createSessionWithCoordinate cfg c3 c6
    else c3
  if c4.is_recording && c4.session_started then
    { c4 with coords := c4.coords ++ [full_state], fps_values := c4.fps_values ++ [fps] }
  else c4

/-- One inbound message dispatched synchronously by the network layer. -/
inductive Msg where
  | frame (data : Frame)
  | pose (coord : Fin 12 → ℚ) (timestamp fps now : ℚ)

/-- Dispatch one message to its handler. -/
def stepMsg (cfg : Config) (c : Controller) : Msg → Controller
  | Msg.frame data => handleFrame cfg c data
  | Msg.pose coord ts fps now => handleCoordinate cfg c coord ts fps now

/-- Run a sequence of interleaved messages in arrival order. -/
def runMsgs (cfg : Config) (c : Controller) : List Msg → Controller
  | [] => c
  | m :: ms => runMsgs cfg (stepMsg cfg c m) ms

/-- A concrete configuration: auto-save off, target 60 frames, auto-switch off. -/
def cfgW : Config :=
  { auto_save := false, saver_ok := false, target_frames := 60,
    auto_switch := false, measured_fps := 0, delay_ms := 0 }

/-! ## Theorems -/

theorem processDataPackets_cons (b0 b1 b2 b3 b4 b5 b6 b7 : Nat) (rest : List Nat) :
    processDataPackets (b0 :: b1 :: b2 :: b3 :: b4 :: b5 :: b6 :: b7 :: rest) =
      if be32 b4 b5 b6 b7 ≤ rest.length then
        ((be32 b0 b1 b2 b3, rest.take (be32 b4 b5 b6 b7)) ::
           (processDataPackets (rest.drop (be32 b4 b5 b6 b7))).1,
         (processDataPackets (rest.drop (be32 b4 b5 b6 b7))).2)
      else ([], b0 :: b1 :: b2 :: b3 :: b4 :: b5 :: b6 :: b7 :: rest) := by
  rw [processDataPackets.eq_def]

theorem processDataPackets_short (buf : List Nat) (h : buf.length < 8) :
    processDataPackets buf = ([], buf) := by
  rw [processDataPackets.eq_def]
  split
  · rename_i b0 b1 b2 b3 b4 b5 b6 b7 rest
    simp at h
    omega
  · rfl

theorem processDataPackets_residue (buf : List Nat) :
    processDataPackets (processDataPackets buf).2 = ([], (processDataPackets buf).2) := by
  induction buf using processDataPackets.induct with
  | case1 b0 b1 b2 b3 b4 b5 b6 b7 rest hle ih =>
    rw [processDataPackets_cons, if_pos hle]
    exact ih
  | case2 b0 b1 b2 b3 b4 b5 b6 b7 rest hgt =>
    rw [processDataPackets_cons, if_neg hgt, processDataPackets_cons, if_neg hgt]
  | case3 buf h =>
    have hshort : buf.length < 8 := by
      rcases buf with _ | ⟨a0, _ | ⟨a1, _ | ⟨a2, _ | ⟨a3, _ | ⟨a4, _ | ⟨a5, _ | ⟨a6, _ | ⟨a7, tl⟩⟩⟩⟩⟩⟩⟩⟩
      · simp
      · simp
      · simp
      · simp
      · simp
      · simp
      · simp
      · simp
      · exact absurd rfl (h a0 a1 a2 a3 a4 a5 a6 a7 tl)
    rw [processDataPackets_short buf hshort, processDataPackets_short buf hshort]

theorem processDataPackets_append (buf extra : List Nat) :
    processDataPackets (buf ++ extra) =
      ((processDataPackets buf).1 ++
         (processDataPackets ((processDataPackets buf).2 ++ extra)).1,
       (processDataPackets ((processDataPackets buf).2 ++ extra)).2) := by
  induction buf using processDataPackets.induct generalizing extra with
  | case1 b0 b1 b2 b3 b4 b5 b6 b7 rest hle ih =>
    have hcons :
        (b0 :: b1 :: b2 :: b3 :: b4 :: b5 :: b6 :: b7 :: rest) ++ extra
          = b0 :: b1 :: b2 :: b3 :: b4 :: b5 :: b6 :: b7 :: (rest ++ extra) := by
      simp
    have hle' : be32 b4 b5 b6 b7 ≤ (rest ++ extra).length := by
      simp only [List.length_append]
      omega
    rw [hcons, processDataPackets_cons, if_pos hle',
      List.take_append_of_le_length hle, List.drop_append_of_le_length hle,
      processDataPackets_cons, if_pos hle, ih]
    simp
  | case2 b0 b1 b2 b3 b4 b5 b6 b7 rest hgt =>
    rw [processDataPackets_cons, if_neg hgt]
    simp
  | case3 buf h =>
    have hshort : buf.length < 8 := by
      rcases buf with _ | ⟨a0, _ | ⟨a1, _ | ⟨a2, _ | ⟨a3, _ | ⟨a4, _ | ⟨a5, _ | ⟨a6, _ | ⟨a7, tl⟩⟩⟩⟩⟩⟩⟩⟩
      · simp
      · simp
      · simp
      · simp
      · simp
      · simp
      · simp
      · simp
      · exact absurd rfl (h a0 a1 a2 a3 a4 a5 a6 a7 tl)
    rw [processDataPackets_short buf hshort]
    simp

theorem feedMany_of_blocked (chunks : List (List Nat)) :
    ∀ st : List Nat, processDataPackets st = ([], st) →
      feedMany st chunks = processDataPackets (st ++ chunks.flatten) := by
  induction chunks with
  | nil =>
    intro st h
    simp only [feedMany, List.flatten_nil, List.append_nil]
    exact h.symm
  | cons c cs ih =>
    intro st h
    have hres := processDataPackets_residue (st ++ c)
    have hstep := ih (processDataPackets (st ++ c)).2 hres
    have happ := processDataPackets_append (st ++ c) cs.flatten
    calc feedMany st (c :: cs)
        = ((feed st c).1 ++ (feedMany (feed st c).2 cs).1,
            (feedMany (feed st c).2 cs).2) := rfl
      _ = ((processDataPackets (st ++ c)).1 ++
            (processDataPackets ((processDataPackets (st ++ c)).2 ++ cs.flatten)).1,
            (processDataPackets ((processDataPackets (st ++ c)).2 ++ cs.flatten)).2) := by
            rw [feed, hstep]
      _ = processDataPackets (st ++ c ++ cs.flatten) := (happ).symm
      _ = processDataPackets (st ++ (c :: cs).flatten) := by
            rw [List.flatten_cons, ← List.append_assoc]

/-- C2: feeding a byte stream to the decoder in arbitrary chunks yields exactly
the packet sequence of feeding the concatenation at once (and the same retained
buffer); and a header whose declared length exceeds the bytes available causes
the decoder to buffer and wait, emitting nothing and keeping the buffer intact. -/
theorem decoder_chunking_invariant :
    (∀ chunks : List (List Nat),
        feedMany [] chunks = processDataPackets chunks.flatten) ∧
    (∀ (buf : List Nat) (t n : Nat), readHeader buf = some (t, n) →
        buf.length < 8 + n → processDataPackets buf = ([], buf)) := by
  constructor
  · intro chunks
    have h := feedMany_of_blocked chunks [] (processDataPackets_short [] (by simp))
    simpa using h
  · intro buf t n hhd hlen
    unfold readHeader at hhd
    split at hhd
    · rename_i b0 b1 b2 b3 b4 b5 b6 b7 tl
      have hn : n = be32 b4 b5 b6 b7 := by
        injection hhd with hhd
        injection hhd with h1 h2
        exact h2.symm
      have hgt : ¬ be32 b4 b5 b6 b7 ≤ tl.length := by
        simp only [List.length_cons] at hlen
        omega
      rw [processDataPackets_cons, if_neg hgt]
    · exact absurd hhd (by simp)

/-- Witness for C2: a buffer holding a header that declares 2 payload bytes but
has only 1 available is left untouched, emitting no packets. -/
theorem decoder_chunking_invariant_witness :
    processDataPackets [0, 0, 0, 1, 0, 0, 0, 2, 9] = ([], [0, 0, 0, 1, 0, 0, 0, 2, 9]) :=
  decoder_chunking_invariant.2 [0, 0, 0, 1, 0, 0, 0, 2, 9] 1 2 rfl (by decide)

theorem matInv_isSymm {M : Matrix (Fin 6) (Fin 6) ℚ} (h : M.IsSymm) :
    (matInv M).IsSymm := by
  unfold Matrix.IsSymm at h ⊢
  unfold matInv
  rw [Matrix.transpose_smul, Matrix.adjugate_transpose, h]

theorem sandwich_isSymm {k n : ℕ} (B : Matrix (Fin k) (Fin n) ℚ)
    {M : Matrix (Fin n) (Fin n) ℚ} (hM : M.IsSymm) :
    (B * M * B.transpose).IsSymm := by
  unfold Matrix.IsSymm at hM ⊢
  rw [Matrix.transpose_mul, Matrix.transpose_mul, Matrix.transpose_transpose, hM,
    Matrix.mul_assoc]

theorem Qmat_isSymm : Qmat.IsSymm := Matrix.isSymm_one.smul _

theorem Rbase_isSymm : Rbase.IsSymm := Matrix.isSymm_one

theorem correct_step_isSymm {Pp : Matrix (Fin 12) (Fin 12) ℚ}
    {W : Matrix (Fin 6) (Fin 6) ℚ} (hPp : Pp.IsSymm) (hW : W.IsSymm) :
    ((1 - Pp * Hmat.transpose * W * Hmat) * Pp).IsSymm := by
  unfold Matrix.IsSymm at hPp hW ⊢
  simp only [Matrix.transpose_sub, Matrix.transpose_mul, Matrix.transpose_one,
    Matrix.transpose_transpose, hPp, hW, Matrix.sub_mul, Matrix.mul_sub,
    Matrix.one_mul, Matrix.mul_one, Matrix.mul_assoc]

theorem update_preserves_isSymm (p : Predictor) (m : List ℚ) (t : ℚ) (fresh : Bool)
    (hP : p.P.IsSymm) : (p.update m t fresh).P.IsSymm := by
  unfold Predictor.update
  by_cases hm : m.length ≠ 6
  · rw [if_pos hm]
    exact hP
  · rw [if_neg hm]
    dsimp only
    have hprior : (Matrix.of (fun i j : Fin 12 =>
        if (j : Nat) = (i : Nat) + 6 then
          (if p.use_fixed_fps then p.default_dt
           else match p.last_update_time with
             | some t0 => t - t0
             | none => p.default_dt)
        else p.A i j) * p.P *
        (Matrix.of (fun i j : Fin 12 =>
          if (j : Nat) = (i : Nat) + 6 then
            (if p.use_fixed_fps then p.default_dt
             else match p.last_update_time with
               | some t0 => t - t0
               | none => p.default_dt)
          else p.A i j)).transpose + Qmat).IsSymm :=
      (sandwich_isSymm _ hP).add Qmat_isSymm
    have hR : (if fresh = true then Rbase else (100 : ℚ) • Rbase).IsSymm := by
      by_cases hf : fresh = true
      · rw [if_pos hf]; exact Rbase_isSymm
      · rw [if_neg hf]; exact Rbase_isSymm.smul _
    have hS := ((sandwich_isSymm Hmat hprior).add hR)
    exact correct_step_isSymm hprior (matInv_isSymm hS)

/-- C5: over every sequence of valid 6-component pose updates, the 12×12
covariance `P` stays exactly symmetric after each update, in the exact-rational
model of the predict-then-correct recursion started from the symmetric
initial covariance `100 * eye(12)`. -/
theorem covariance_stays_symmetric (initial_fps : ℚ)
    (us : List (List ℚ × ℚ × Bool)) (hvalid : ∀ u ∈ us, (u.1).length = 6) :
    ((runUpdates (Predictor.init initial_fps) us).P).IsSymm := by
  have hgen : ∀ (vs : List (List ℚ × ℚ × Bool)) (p : Predictor), p.P.IsSymm →
      ((runUpdates p vs).P).IsSymm := by
    intro vs
    induction vs with
    | nil => intro p hp; exact hp
    | cons u us ih =>
      intro p hp
      exact ih _ (update_preserves_isSymm p u.1 u.2.1 u.2.2 hp)
  refine hgen us _ ?_
  unfold Predictor.init Matrix.IsSymm
  dsimp only
  rw [Matrix.transpose_smul, Matrix.transpose_one]

/-- Witness for C5: one concrete valid update from the initial state keeps the
covariance symmetric. -/
theorem covariance_stays_symmetric_witness :
    (∀ u ∈ [([(0 : ℚ), 0, 0, 0, 0, 0], (1 : ℚ), true)], (u.1).length = 6) ∧
    ((runUpdates (Predictor.init 30) [([(0 : ℚ), 0, 0, 0, 0, 0], (1 : ℚ), true)]).P).IsSymm :=
  ⟨by decide, covariance_stays_symmetric 30 _ (by decide)⟩

/-- C8: a stale update (`is_fresh = false`) uses measurement noise `100 * R_base`
for that single update, and the next fresh update reverts exactly to `R_base`
(the `R` field is assigned before the correction step uses it, so the field
after a call is the covariance that call used). -/
theorem stale_measurement_inflates_R (p : Predictor) (m m2 : List ℚ) (t t2 : ℚ)
    (hm : m.length = 6) (hm2 : m2.length = 6) :
    (p.update m t false).R = (100 : ℚ) • Rbase ∧
    ((p.update m t false).update m2 t2 true).R = Rbase := by
  have h1 : (p.update m t false).R = (100 : ℚ) • Rbase := by
    unfold Predictor.update
    rw [if_neg (show ¬ m.length ≠ 6 by omega)]
    rfl
  refine ⟨h1, ?_⟩
  conv_lhs => rw [Predictor.update]
  rw [if_neg (show ¬ m2.length ≠ 6 by omega)]
  rfl

/-- Witness for C8 at a concrete state and measurements. -/
theorem stale_measurement_inflates_R_witness :
    ((Predictor.init 30).update [0, 0, 0, 0, 0, 0] 1 false).R = (100 : ℚ) • Rbase ∧
    (((Predictor.init 30).update [0, 0, 0, 0, 0, 0] 1 false).update
        [1, 1, 1, 1, 1, 1] 2 true).R = Rbase :=
  stale_measurement_inflates_R (Predictor.init 30) _ _ 1 2 rfl rfl

/-- C9: a measurement whose length is not 6 makes `update` a no-op: the whole
predictor state (state vector, covariance, transition matrix, timestamp anchor,
noise covariance and history) is returned unchanged. -/
theorem wrong_length_measurement_noop (p : Predictor) (m : List ℚ) (t : ℚ)
    (fresh : Bool) (hm : m.length ≠ 6) : p.update m t fresh = p := by
  unfold Predictor.update
  rw [if_pos hm]

/-- Witness for C9: a 3-component measurement leaves the initial state intact. -/
theorem wrong_length_measurement_noop_witness :
    (Predictor.init 30).update [1, 2, 3] 5 true = Predictor.init 30 :=
  wrong_length_measurement_noop (Predictor.init 30) [1, 2, 3] 5 true (by decide)

/-- C10: with automatic arbitration enabled, a zero or negative measured fps
produces no mode decision at all: the predictor (its time-base mode included)
is left unchanged for every inter-packet delay. -/
theorem arbiter_skips_on_nonpositive_measured_fps (measuredFps delayMs pushFps : ℚ)
    (pred : Predictor) (hm : measuredFps ≤ 0) :
    applyAutoSwitch true measuredFps delayMs pushFps pred = pred := by
  unfold applyAutoSwitch
  rw [if_pos rfl, if_neg (by linarith)]

/-- Witness for C10: measured fps 0 with a 500 ms delay changes nothing. -/
theorem arbiter_skips_on_nonpositive_measured_fps_witness :
    applyAutoSwitch true 0 500 30 (Predictor.init 30) = Predictor.init 30 :=
  arbiter_skips_on_nonpositive_measured_fps 0 500 30 (Predictor.init 30) (by norm_num)

theorem auto_save_cond_false {cfg : Config} (hsave : cfg.auto_save = true → cfg.saver_ok = true) :
    (cfg.auto_save && !cfg.saver_ok) = false := by
  by_cases ha : cfg.auto_save = true
  · rw [ha, hsave ha]
    rfl
  · rw [Bool.not_eq_true] at ha
    rw [ha]
    rfl

/-- C4: while awaiting the first pose after `start()`, the first pose is
always accepted and creates the session, for every wall-clock reading: the
handler's resulting state does not depend on the clock value used for the
10-second timeout check (the source computes `is_timeout` only to choose
between two log lines), so exceeding the timeout never changes acceptance. -/
theorem first_pose_accepted_regardless_of_timeout (cfg : Config) (c : Controller)
    (coord : Fin 12 → ℚ) (ts fps now now2 : ℚ)
    (hw : c.waiting_for_first_coordinate = true) (hr : c.is_recording = true)
    (hsave : cfg.auto_save = true → cfg.saver_ok = true) :
    handleCoordinate cfg c coord ts fps now = handleCoordinate cfg c coord ts fps now2 ∧
    (handleCoordinate cfg c coord ts fps now).session_started = true ∧
    (handleCoordinate cfg c coord ts fps now).waiting_for_first_coordinate = false := by
  have hcond := auto_save_cond_false hsave
  refine ⟨rfl, ?_, ?_⟩
  · rcases hff : c.first_frame_data with _ | f <;>
      simp [handleCoordinate, createSessionWithCoordinate, processCachedFirstFrame,
        stopRecording, hcond, hw, hr, hff]
  · rcases hff : c.first_frame_data with _ | f <;>
      simp [handleCoordinate, createSessionWithCoordinate, processCachedFirstFrame,
        stopRecording, hcond, hw, hr, hff]

/-- Witness for C4: a start state fed one pose with a late clock reading
(12 s elapsed, past the 10 s diagnostic threshold) still creates the session
and matches the outcome at an on-time clock reading. -/
theorem first_pose_accepted_regardless_of_timeout_witness :
    handleCoordinate cfgW (startRecording (Controller.init 30) 0) (fun _ => 0) 1 30 12
      = handleCoordinate cfgW (startRecording (Controller.init 30) 0) (fun _ => 0) 1 30 1 ∧
    (handleCoordinate cfgW (startRecording (Controller.init 30) 0)
        (fun _ => 0) 1 30 12).session_started = true :=
  ⟨(first_pose_accepted_regardless_of_timeout cfgW (startRecording (Controller.init 30) 0)
      (fun _ => 0) 1 30 12 1 rfl rfl (by decide)).1,
   (first_pose_accepted_regardless_of_timeout cfgW (startRecording (Controller.init 30) 0)
      (fun _ => 0) 1 30 12 1 rfl rfl (by decide)).2.1⟩

theorem handleFrame_series (cfg : Config) (c : Controller) (data : Frame) :
    (handleFrame cfg c data).coords = c.coords ∧
    (handleFrame cfg c data).fps_values = c.fps_values := by
  unfold handleFrame stopRecording
  refine ⟨?_, ?_⟩ <;> (repeat' (first | split | dsimp only)) <;> rfl

theorem handleCoordinate_series (cfg : Config) (c : Controller) (coord : Fin 12 → ℚ)
    (ts fps now : ℚ) (h : c.coords.length = c.fps_values.length) :
    (handleCoordinate cfg c coord ts fps now).coords.length
      = (handleCoordinate cfg c coord ts fps now).fps_values.length := by
  unfold handleCoordinate createSessionWithCoordinate processCachedFirstFrame stopRecording
  repeat' (first | split | dsimp only)
  all_goals simp [h]

/-- Counterexample to C1: start, one frame, one pose (the session becomes
Active with the cached frame attached), then one more frame: the frames
series has length 2 while the poses and declared-fps series have length 1,
so the three series are not kept equal in length after each message. -/
theorem series_lengths_diverge :
    (runMsgs cfgW (startRecording (Controller.init 30) 0)
        [Msg.frame zeroFrame, Msg.pose (fun _ => 0) 1 30 1,
         Msg.frame zeroFrame]).recorded_frames.length = 2 ∧
    (runMsgs cfgW (startRecording (Controller.init 30) 0)
        [Msg.frame zeroFrame, Msg.pose (fun _ => 0) 1 30 1,
         Msg.frame zeroFrame]).coords.length = 1 ∧
    (runMsgs cfgW (startRecording (Controller.init 30) 0)
        [Msg.frame zeroFrame, Msg.pose (fun _ => 0) 1 30 1,
         Msg.frame zeroFrame]).fps_values.length = 1 :=
  ⟨rfl, rfl, rfl⟩

/-- C1 (amended): after each handled message, the poses series and the
declared-fps series stay equal in length (they are appended together, exactly
when a pose arrives with the session active); the frames series is appended
independently by frame messages and need not stay equal to them. -/
theorem poses_fps_series_lengths_agree (cfg : Config) (c : Controller)
    (msgs : List Msg) (h : c.coords.length = c.fps_values.length) :
    (runMsgs cfg c msgs).coords.length = (runMsgs cfg c msgs).fps_values.length := by
  induction msgs generalizing c with
  | nil => exact h
  | cons m ms ih =>
    refine ih _ ?_
    cases m with
    | frame data =>
      have hs := handleFrame_series cfg c data
      show (handleFrame cfg c data).coords.length = (handleFrame cfg c data).fps_values.length
      rw [hs.1, hs.2]
      exact h
    | pose coord ts fps now => exact handleCoordinate_series cfg c coord ts fps now h

/-- Witness for C1 (amended): the counterexample run keeps the pose and fps
series equal in length. -/
theorem poses_fps_series_lengths_agree_witness :
    (runMsgs cfgW (startRecording (Controller.init 30) 0)
        [Msg.frame zeroFrame, Msg.pose (fun _ => 0) 1 30 1,
         Msg.frame zeroFrame]).coords.length
      = (runMsgs cfgW (startRecording (Controller.init 30) 0)
          [Msg.frame zeroFrame, Msg.pose (fun _ => 0) 1 30 1,
           Msg.frame zeroFrame]).fps_values.length :=
  poses_fps_series_lengths_agree cfgW (startRecording (Controller.init 30) 0)
    [Msg.frame zeroFrame, Msg.pose (fun _ => 0) 1 30 1, Msg.frame zeroFrame] rfl
end THZ
